import Mathlib

/-!
Formal model of the real-time pipeline-status synchronization subsystem of the
Audit frontend: the `PipelineProgress` component (per-job reducer over
WebSocket frames), the `useWebSocket` hook (transport channel), the
`CallDetailPage` reconciliation wiring, and the `BatchPage` aggregation and
auto-refresh loop. Each definition is a shallow embedding of the corresponding
TypeScript, with JavaScript numbers carried as exact integers / rationals and
the single-threaded React event loop modelled as sequential state transitions.
-/

namespace Audit

/-- Wire constant: the event type string for a non-terminal progress frame. -/
def pipelineProgressType : String := "pipeline_progress"

/-- Wire constant: the event type string for a terminal frame. -/
def pipelineCompleteType : String := "pipeline_complete"

/-- Job-store status vocabulary: a job not yet picked up. -/
def statusQueued : String := "queued"

/-- Job-store status vocabulary: a job currently running. -/
def statusProcessing : String := "processing"

/-- Job-store status vocabulary: terminal success. -/
def statusCompleted : String := "completed"

/-- Job-store status vocabulary: terminal failure. -/
def statusFailed : String := "failed"

/-- Stage state as rendered by `PipelineProgress` (`Stage.status` in the source). -/
inductive StageState where
  | pending
  | running
  | completed
  | failed
deriving DecidableEq, Repr

/-- One pipeline step, the `Stage` interface of `PipelineProgress.tsx`. -/
structure Stage where
  stage : String
  label : String
  status : StageState
  error : Option String
deriving DecidableEq, Repr

/-- A decoded inbound frame (`WsMessage = Record<string, unknown>` after
`JSON.parse`), restricted to the fields the handler reads. Each field is
`Option` because a JavaScript property access on a missing key yields
`undefined`; the handler itself applies `?? []` / `?? 0` defaults. -/
structure WsMessage where
  type : Option String
  stages : Option (List Stage)
  progress_pct : Option Int
  call_status : Option String
deriving DecidableEq, Repr

/-- A raw frame as it arrives on the socket: either text that is not decodable
JSON (`JSON.parse` throws and the `catch` in `useWebSocket.onmessage` swallows
it) or a decoded message. -/
inductive RawFrame where
  | notJson : RawFrame
  | json : WsMessage → RawFrame
deriving DecidableEq, Repr

/-- The React state of one `PipelineProgress` component instance, i.e. the
JobView for one job: the four `useState` cells plus a counter of how many
times the `onComplete` callback has been invoked. -/
structure PipelineState where
  stages : List Stage
  progressPct : Int
  callStatus : Option String
  done : Bool
  onCompleteCount : Nat
deriving DecidableEq, Repr

/-- Initial `useState` values of `PipelineProgress`: empty stage list,
percentage 0, status as passed in, `done` iff the initial status is already
terminal, callback not yet fired. -/
def initState (initialStatus : String) : PipelineState :=
  { stages := []
    progressPct := 0
    callStatus := some initialStatus
    done := initialStatus == statusCompleted || initialStatus == statusFailed
    onCompleteCount := 0 }

/-- The type check at the head of the `onMessage` handler: only
`pipeline_progress` and `pipeline_complete` frames are acted upon. -/
def recognized (t : Option String) : Bool :=
  t == some pipelineProgressType || t == some pipelineCompleteType

/-- The `onMessage` handler of `PipelineProgress`: on a recognized type it
replaces `stages` (default `[]`), `progressPct` (default `0`, no clamping) and
`callStatus` (stored verbatim, possibly `undefined`) wholesale; on
`pipeline_complete` it additionally sets `done` and invokes `onComplete`. Any
other message leaves the state untouched. -/
def onMessage (s : PipelineState) (msg : WsMessage) : PipelineState :=
  if recognized msg.type then
    let s1 := { s with
      stages := msg.stages.getD []
      progressPct := msg.progress_pct.getD 0
      callStatus := msg.call_status }
    if msg.type == some pipelineCompleteType then
      { s1 with done := true, onCompleteCount := s1.onCompleteCount + 1 }
    else s1
  else s

/-- The `useEffect` on `[done, stages.length]`: when the job is done and no
stage data is present, show a full bar. -/
def forceFullBar (s : PipelineState) : PipelineState :=
  if s.done && s.stages.isEmpty then { s with progressPct := 100 } else s

/-- The component state right after mount: initial state with the
full-bar effect applied once. -/
def initView (initialStatus : String) : PipelineState :=
  forceFullBar (initState initialStatus)

/-- Delivery of one raw frame to the component. `useWebSocket` is mounted with
`enabled: !done`, so once `done` is set the socket is torn down and no further
frame reaches the handler; a non-JSON frame is swallowed by the `try`/`catch`
in `onmessage`; a decoded frame goes through the handler and then the
full-bar effect re-runs. -/
def deliver (s : PipelineState) (f : RawFrame) : PipelineState :=
  if s.done then s
  else
    match f with
    | .notJson => s
    | .json m => forceFullBar (onMessage s m)

/-- Folding a whole sequence of inbound frames into the JobView. -/
def run (s : PipelineState) (fs : List RawFrame) : PipelineState :=
  fs.foldl deliver s

/-- Modelled from the spec (for comparison with the source): the integer clamp
of a percentage to `[0, 100]` that section 4.3 says the reducer applies. The
source handler has no counterpart of this function. -/
def specClampPct (n : Int) : Int := max 0 (min 100 n)

/-- Fixed reconnect interval of `useWebSocket` (`setTimeout(connect, 3000)`). -/
def RECONNECT_MS : Nat := 3000

/-- Fixed batch refresh interval of `BatchPage` (`setInterval(load, 5000)`). -/
def BATCH_REFRESH_MS : Nat := 5000

/-- Fixed post-terminal settle delay of `CallDetailPage`
(`setTimeout(fetchData, 1000)`). -/
def SETTLE_MS : Nat := 1000

/-- Lifecycle state of the browser `WebSocket` object held in `wsRef`. -/
inductive ReadyState where
  | CONNECTING
  | OPEN
  | CLOSING
  | CLOSED
deriving DecidableEq, Repr

/-- Outcome of one `send` call at the transport layer. -/
inductive SendOutcome where
  | transmitted
  | dropped
  | invalidStateError
deriving DecidableEq, Repr

/-- The platform `WebSocket.send(data)` semantics (WHATWG WebSocket API): when
`readyState` is CONNECTING the call throws an `InvalidStateError`; when OPEN
the data is transmitted; when CLOSING or CLOSED the data is silently
discarded. -/
def websocketSend (rs : ReadyState) : SendOutcome :=
  match rs with
  | .CONNECTING => .invalidStateError
  | .OPEN => .transmitted
  | .CLOSING => .dropped
  | .CLOSED => .dropped

/-- The hook's `send`: `wsRef.current?.send(JSON.stringify(msg))`. The optional
chaining makes it a silent no-op only when no socket object exists yet; when a
socket exists the call is forwarded unconditionally, with no `readyState`
guard and no queueing. -/
def hookSend (wsRef : Option ReadyState) : SendOutcome :=
  match wsRef with
  | none => .dropped
  | some rs => websocketSend rs

/-- Combined state of one `CallDetailPage` with its embedded
`PipelineProgress` and `useWebSocket`: whether the socket is currently open,
whether a post-complete settle fetch is pending, and the per-job view. -/
structure CdpState where
  channelOpen : Bool
  settlePending : Bool
  job : PipelineState
deriving DecidableEq, Repr

/-- Observable side effects of the page: a REST snapshot fetch of the job
store (`fetchData`, i.e. `callsApi.getResults`) and the application of a push
event to the JobView. -/
inductive CdpEvent where
  | fetchIssued
  | eventApplied
deriving DecidableEq, Repr

/-- Event-loop actions driving `CallDetailPage`: component mount (runs the
`fetchData` effect), socket open / close (`ws.onopen` / `ws.onclose`), the
3000 ms reconnect timer firing (`connect` creates a fresh socket), delivery of
an inbound frame, and the 1000 ms settle timer firing. -/
inductive CdpAction where
  | mount
  | sockOpen
  | sockClose
  | reconnectTimer
  | recv : RawFrame → CdpAction
  | settleTimer
deriving DecidableEq, Repr

/-- One step of the page, returning the new state and the emitted observable
events. `mount` issues the initial snapshot fetch; opening or closing the
socket and the reconnect timer issue nothing; a frame is applied only while
the socket is open and the job not done (on `pipeline_complete` the
`onComplete` callback schedules the settle fetch and `enabled` flips false, so
the socket is torn down); the settle timer issues its one fetch only if a
complete event armed it. -/
def cdpStep (s : CdpState) (a : CdpAction) : CdpState × List CdpEvent :=
  match a with
  | .mount => (s, [.fetchIssued])
  | .sockOpen => ({ s with channelOpen := true }, [])
  | .sockClose => ({ s with channelOpen := false }, [])
  | .reconnectTimer => (s, [])
  | .settleTimer =>
      if s.settlePending then ({ s with settlePending := false }, [.fetchIssued])
      else (s, [])
  | .recv f =>
      if s.channelOpen && !s.job.done then
        match f with
        | .notJson => (s, [])
        | .json m =>
            if recognized m.type then
              if m.type == some pipelineCompleteType then
                ({ channelOpen := false
                   settlePending := true
                   job := forceFullBar (onMessage s.job m) }, [.eventApplied])
              else
                ({ s with job := forceFullBar (onMessage s.job m) }, [.eventApplied])
            else (s, [])
      else (s, [])

/-- Running a sequence of actions, accumulating the emitted events in order. -/
def cdpRun (s : CdpState) : List CdpAction → CdpState × List CdpEvent
  | [] => (s, [])
  | a :: rest =>
      let step := cdpStep s a
      let tail := cdpRun step.1 rest
      (tail.1, step.2 ++ tail.2)

/-- Page state before any action: socket not yet open, no settle fetch
pending, job view freshly mounted. -/
def cdpInit (initialStatus : String) : CdpState :=
  { channelOpen := false, settlePending := false, job := initView initialStatus }

/-- One row of the batch job list (`BatchCall` in `BatchPage`), restricted to
the fields the aggregation reads. -/
structure BatchCall where
  id : Nat
  status : String
deriving DecidableEq, Repr

/-- `total = calls.length`. -/
def totalCount (calls : List BatchCall) : Nat := calls.length

/-- `completed = calls.filter(c => c.status === "completed").length`. -/
def completedCount (calls : List BatchCall) : Nat :=
  (calls.filter fun c => c.status == statusCompleted).length

/-- `failed = calls.filter(c => c.status === "failed").length`. -/
def failedCount (calls : List BatchCall) : Nat :=
  (calls.filter fun c => c.status == statusFailed).length

/-- `hasActive = calls.some(c => c.status === "queued" || c.status === "processing")`. -/
def hasActive (calls : List BatchCall) : Bool :=
  calls.any fun c => c.status == statusQueued || c.status == statusProcessing

/-- State of the `BatchPage` auto-refresh loop: the current call list and
whether the 5000 ms interval is armed. -/
structure BatchState where
  calls : List BatchCall
  timerArmed : Bool
deriving DecidableEq, Repr

/-- The effect of a settled `load()`: `setCalls` stores the fetched list and
the auto-refresh `useEffect` re-runs — its cleanup clears any previous
interval and it arms a new one iff some call is still queued or processing. -/
def refreshEffect (calls : List BatchCall) : BatchState :=
  { calls := calls, timerArmed := hasActive calls }

/-- One 5000 ms tick of the event loop: if the interval is armed, `load()`
runs and settles with `newCalls` and the effect re-runs; if it is not armed,
no interval exists and nothing happens. -/
def batchTick (s : BatchState) (newCalls : List BatchCall) : BatchState :=
  if s.timerArmed then refreshEffect newCalls else s

/-- Page state after the mount `load()` settles with the initial list. -/
def batchMount (initial : List BatchCall) : BatchState := refreshEffect initial

/-- Folding a sequence of tick results into the page state. -/
def batchRun (s : BatchState) (ticks : List (List BatchCall)) : BatchState :=
  ticks.foldl batchTick s

/-- Normalization loop for binary64 division of `num` by `t` with `num ≤ t`:
doubles `num` and the scale `pw` together until `num ≥ t`, so on return
`pw = 2^52 * 2^s` with `s` the least shift making `num * 2^s ≥ t` — i.e.
`num * pw` divided by `t` sits in the significand range `[2^52, 2^53)`.
The fuel only bounds the structural recursion; it is never exhausted for a
positive numerator. -/
def findShiftP : ℕ → ℕ → ℕ → ℕ → ℕ × ℕ
  | 0, num, pw, _ => (num, pw)
  | fuel+1, num, pw, t =>
      if num < t then findShiftP fuel (2*num) (2*pw) t else (num, pw)

/-- Excess-scale loop for binary64 multiplication: the least power of two `d`
with `p < 2^53 * d`, i.e. the low bits of the exact product `p` that must be
rounded away to fit a 53-bit significand. -/
def findDiv : ℕ → ℕ → ℕ → ℕ
  | 0, _, d => d
  | fuel+1, p, d => if p < 9007199254740992 * d then d else findDiv fuel p (2*d)

/-- Nearest integer to `num / den`, ties to even: the IEEE-754 default
rounding direction applied to a nonnegative rational. -/
def roundRatNE (num den : ℕ) : ℕ :=
  let q := num / den
  let r := num % den
  if 2*r < den then q
  else if den < 2*r then q+1
  else if q % 2 = 0 then q else q+1

/-- Binary64 division `fl(c / t)` for the job counts arising here
(`0 ≤ c ≤ t`, so the quotient is in `[0, 1]`): the result is the dyadic
`m / den` with `den = 2^k` chosen so `c * den / t` sits in the significand
range `[2^52, 2^53)` (the constant is `2^52`), and `m` that scaled quotient
rounded to nearest, ties to even; a zero numerator yields the exact zero. -/
def fpDiv (c t : ℕ) : ℕ × ℕ :=
  let r := findShiftP 60 c 4503599627370496 t
  (roundRatNE (c * r.2) t, r.2)

/-- Binary64 multiplication of the dyadic `m / den` by the exactly
representable 100: the exact product `m * 100` is rounded once (nearest, ties
to even) to a 53-bit significand, dropping the excess low bits `d`. -/
def fpMul100 (m den : ℕ) : ℕ × ℕ :=
  let p := m * 100
  let d := findDiv 60 p 1
  (roundRatNE p d, den / d)

/-- ECMAScript `Math.round` on a nonnegative dyadic `m / den`: the closest
integer to the exact value of the double, halfway cases toward positive
infinity, i.e. `⌊m / den + 1/2⌋`. -/
def jsMathRound (m den : ℕ) : ℕ :=
  if den ≤ 1 then m else (m + den / 2) / den

/-- `Math.round((c / t) * 100)` as JavaScript computes it: binary64 division,
then binary64 multiplication by 100, then `Math.round` on the resulting
double. -/
def pctCore (c t : ℕ) : ℕ :=
  let d1 := fpDiv c t
  let d2 := fpMul100 d1.1 d1.2
  jsMathRound d2.1 d2.2

/-- Modelled from the claim (for comparison with the source): the exact
rounding `round(100 * c / t)` the claim asserts, in integer form
`⌊(100c/t) + 1/2⌋ = (200c + t) / (2t)`. The source computes in floating
point instead. -/
def specRoundPct (c t : ℕ) : ℕ := (200*c + t) / (2*t)

/-- One cell of the float-versus-exact comparison: at `(c, t)` the float path
equals the exact rounding, or is one below it at an exact half-integer tie. -/
def nearSpec (t : ℕ) (c : ℕ) : Bool :=
  pctCore c t == specRoundPct c t ||
  (pctCore c t + 1 == specRoundPct c t && (200*c) % (2*t) == t)

/-- `progressPct = total > 0 ? Math.round((completed / total) * 100) : 0`,
with the division and multiplication evaluated in IEEE-754 binary64 as in the
JavaScript source. -/
def batchProgressPct (calls : List BatchCall) : ℤ :=
  if 0 < totalCount calls then
    (pctCore (completedCount calls) (totalCount calls) : ℤ)
  else 0

/-- Frame type used by the decoder rejection scenario: a heartbeat frame. -/
def pingType : String := "ping"


/-- Example frame: a progress event carrying 10 percent. -/
def exProgress10 : WsMessage :=
  { type := some pipelineProgressType
    stages := some []
    progress_pct := some 10
    call_status := some statusProcessing }

/-- Example frame: a progress event carrying 20 percent. -/
def exProgress20 : WsMessage :=
  { type := some pipelineProgressType
    stages := some []
    progress_pct := some 20
    call_status := some statusProcessing }

/-- Example frame: a progress event carrying 30 percent. -/
def exProgress30 : WsMessage :=
  { type := some pipelineProgressType
    stages := some []
    progress_pct := some 30
    call_status := some statusProcessing }

/-- Example frame: a progress event carrying 50 percent. -/
def exProgress50 : WsMessage :=
  { type := some pipelineProgressType
    stages := some []
    progress_pct := some 50
    call_status := some statusProcessing }

/-- Example frame: a progress event carrying the out-of-range value 150. -/
def exProgress150 : WsMessage :=
  { type := some pipelineProgressType
    stages := some []
    progress_pct := some 150
    call_status := some statusProcessing }

/-- Example frame: a complete event carrying 100 percent and no stage data. -/
def exComplete100 : WsMessage :=
  { type := some pipelineCompleteType
    stages := some []
    progress_pct := some 100
    call_status := some statusCompleted }

/-- Example stage row: the voice-activity-detection step, still running. -/
def exStageVad : Stage :=
  { stage := "vad"
    label := "Voice activity detection"
    status := StageState.running
    error := none }

/-- Example frame: a complete event carrying 40 percent and one running
stage — a terminal frame whose percentage is not terminal-appropriate. -/
def exComplete40 : WsMessage :=
  { type := some pipelineCompleteType
    stages := some [exStageVad]
    progress_pct := some 40
    call_status := some statusCompleted }

/-- Example frame: a heartbeat, `{"type":"ping"}` — no other fields. -/
def exPing : WsMessage :=
  { type := some pingType
    stages := none
    progress_pct := none
    call_status := none }

/-- Example frame: a recognized type but none of the other expected fields. -/
def exShapelessProgress : WsMessage :=
  { type := some pipelineProgressType
    stages := none
    progress_pct := none
    call_status := none }

/-- Example batch: every job terminal, so the batch is inactive. -/
def exBatchDone : List BatchCall :=
  [{ id := 1, status := statusCompleted }, { id := 2, status := statusFailed }]

/-- Example batch of five jobs: two completed, one failed, two processing —
the three-terminal-plus-two-active scenario. -/
def exBatchMixed : List BatchCall :=
  [{ id := 1, status := statusCompleted }, { id := 2, status := statusCompleted },
   { id := 3, status := statusFailed }, { id := 4, status := statusProcessing },
   { id := 5, status := statusProcessing }]

/-- Example batch of forty jobs with twenty-three completed: the ratio 23/40
whose binary64 evaluation `(23/40)*100 = 57.49999999999999` falls below the
exact tie 57.5. -/
def exBatch2340 : List BatchCall :=
  List.replicate 23 { id := 0, status := statusCompleted } ++
  List.replicate 17 { id := 0, status := statusProcessing }

/-- Once the job is done the socket is gone, so delivery is the identity. -/
theorem deliver_done_eq (s : PipelineState) (f : RawFrame) (h : s.done = true) :
    deliver s f = s := by
  simp [deliver, h]

/-- Unfolding one step of `run`. -/
theorem run_cons (s : PipelineState) (f : RawFrame) (t : List RawFrame) :
    run s (f :: t) = run (deliver s f) t := rfl

/-- Running a done state over any frame sequence changes nothing. -/
theorem run_done_eq (s : PipelineState) (l : List RawFrame) (h : s.done = true) :
    run s l = s := by
  induction l with
  | nil => rfl
  | cons f t ih => rw [run_cons, deliver_done_eq s f h]; exact ih

/-- Running a concatenation is running the pieces in order. -/
theorem run_append_eq (s : PipelineState) (l1 l2 : List RawFrame) :
    run s (l1 ++ l2) = run (run s l1) l2 := by
  simp [run, List.foldl_append]

/-- The full-bar effect touches neither `done` nor the callback counter. -/
theorem forceFullBar_done_count (s : PipelineState) :
    (forceFullBar s).done = s.done ∧
    (forceFullBar s).onCompleteCount = s.onCompleteCount := by
  unfold forceFullBar
  split <;> simp

/-- One delivery preserves the invariant that the callback has fired exactly
once iff the job is done. -/
theorem deliver_count_inv (s : PipelineState) (f : RawFrame)
    (h : s.onCompleteCount = if s.done then 1 else 0) :
    (deliver s f).onCompleteCount = if (deliver s f).done then 1 else 0 := by
  by_cases hd : s.done = true
  · rw [deliver_done_eq s f hd]; exact h
  · replace hd : s.done = false := by simpa using hd
    have hc : s.onCompleteCount = 0 := by simpa [hd] using h
    cases f with
    | notJson => simp [deliver, hd, hc]
    | json m =>
      simp only [deliver, hd, Bool.false_eq_true, if_false]
      rw [(forceFullBar_done_count (onMessage s m)).1,
        (forceFullBar_done_count (onMessage s m)).2]
      unfold onMessage
      split_ifs <;> simp_all

/-- Running any frame sequence preserves the fired-iff-done invariant. -/
theorem run_count_inv (s : PipelineState) (l : List RawFrame)
    (h : s.onCompleteCount = if s.done then 1 else 0) :
    (run s l).onCompleteCount = if (run s l).done then 1 else 0 := by
  induction l generalizing s with
  | nil => exact h
  | cons f t ih => rw [run_cons]; exact ih (deliver s f) (deliver_count_inv s f h)

/-- The callback counter starts at zero. -/
theorem initView_count (st : String) : (initView st).onCompleteCount = 0 := by
  unfold initView initState forceFullBar
  split <;> rfl

/-- C1: once a `complete` event has been applied (the mounted job was not
already terminal and the run of `l1` ends done), the job is terminal, every
subsequent frame is a no-op on the JobView, and the `onComplete` callback has
fired exactly once over the whole sequence. -/
theorem c1_complete_absorbing_callback_once (st : String) (l1 l2 : List RawFrame)
    (h0 : (initView st).done = false)
    (h1 : (run (initView st) l1).done = true) :
    run (initView st) (l1 ++ l2) = run (initView st) l1 ∧
    (run (initView st) l1).onCompleteCount = 1 ∧
    (run (initView st) (l1 ++ l2)).onCompleteCount = 1 := by
  have hA : run (initView st) (l1 ++ l2) = run (initView st) l1 := by
    rw [run_append_eq, run_done_eq _ _ h1]
  have hbase : (initView st).onCompleteCount = if (initView st).done then 1 else 0 := by
    rw [initView_count, h0]; rfl
  have hc : (run (initView st) l1).onCompleteCount = 1 := by
    have hinv := run_count_inv (initView st) l1 hbase
    rw [h1] at hinv
    simpa using hinv
  exact ⟨hA, hc, by rw [hA]; exact hc⟩

/-- Concrete instantiation of the C1 theorem: a `pipeline_complete` frame
followed by a `pipeline_progress` frame on a job mounted as processing. -/
theorem c1_complete_absorbing_callback_once_witness :
    run (initView statusProcessing)
        ([RawFrame.json exComplete100] ++ [RawFrame.json exProgress10]) =
      run (initView statusProcessing) [RawFrame.json exComplete100] ∧
    (run (initView statusProcessing) [RawFrame.json exComplete100]).onCompleteCount = 1 ∧
    (run (initView statusProcessing)
        ([RawFrame.json exComplete100] ++ [RawFrame.json exProgress10])).onCompleteCount = 1 :=
  c1_complete_absorbing_callback_once statusProcessing
    [RawFrame.json exComplete100] [RawFrame.json exProgress10] (by decide) (by decide)

/-- C2: the claim that the exposed percentage is the event value clamped to
`[0, 100]` is false on the code: a `progress_pct` of 150 is stored and exposed
as 150, not as the clamp 100. -/
theorem c2_clamp_counterexample :
    (deliver (initView statusProcessing) (.json exProgress150)).progressPct = 150 ∧
    specClampPct 150 = 100 ∧
    (deliver (initView statusProcessing) (.json exProgress150)).progressPct ≠
      specClampPct 150 := by decide

/-- C2 (amended): for every recognized event applied to a non-terminal job,
the exposed percentage is the event's `progress_pct` exactly as sent, with
absent values defaulting to 0 and no clamping of out-of-range values; the only
exception is a `complete` frame with an empty stage list, where the full-bar
effect overrides the value with 100. -/
theorem c2_amended_percentage_unclamped (s : PipelineState) (m : WsMessage)
    (hdone : s.done = false)
    (hrec : recognized m.type = true)
    (hne : m.type == some pipelineCompleteType → (m.stages.getD []).isEmpty = false) :
    (deliver s (.json m)).progressPct = m.progress_pct.getD 0 := by
  simp only [deliver, hdone, Bool.false_eq_true, if_false]
  unfold onMessage forceFullBar
  split_ifs <;> simp_all

/-- Concrete instantiation of the amended C2 theorem: the out-of-range value
150 is exposed unchanged. -/
theorem c2_amended_percentage_unclamped_witness :
    (deliver (initView statusProcessing) (.json exProgress150)).progressPct = 150 :=
  c2_amended_percentage_unclamped (initView statusProcessing) exProgress150
    (by decide) (by decide) (by decide)

/-- Applying a `pipeline_progress` frame to a non-terminal view stores the
event's percentage verbatim and leaves the job non-terminal. -/
theorem deliver_progress_pct (s : PipelineState) (m : WsMessage)
    (hdone : s.done = false) (ht : m.type = some pipelineProgressType) :
    (deliver s (.json m)).progressPct = m.progress_pct.getD 0 ∧
    (deliver s (.json m)).done = false := by
  have h1 : recognized m.type = true := by rw [ht]; decide
  have h2 : (m.type == some pipelineCompleteType) = false := by rw [ht]; decide
  simp [deliver, hdone, onMessage, h1, h2, forceFullBar]

/-- C4: the claim that the percentage is monotonic non-decreasing while the
job is non-terminal is false on the code: a progress event carrying 50
followed by one carrying 30 leaves the exposed percentage at 30. -/
theorem c4_monotonic_counterexample :
    (deliver (initView statusProcessing) (.json exProgress50)).progressPct = 50 ∧
    (deliver (deliver (initView statusProcessing) (.json exProgress50))
        (.json exProgress30)).progressPct = 30 ∧
    ¬((deliver (initView statusProcessing) (.json exProgress50)).progressPct ≤
      (deliver (deliver (initView statusProcessing) (.json exProgress50))
        (.json exProgress30)).progressPct) := by decide

/-- C4 (amended): the reducer is a wholesale replacement — after two
consecutive `progress` events on a non-terminal job, the exposed percentage is
exactly the second event's value, whatever the first carried, so it can
decrease; only a `complete` frame with no stage data forces 100. -/
theorem c4_amended_last_writer_wins (s : PipelineState) (hdone : s.done = false)
    (p q : Int) (st1 st2 : List Stage) (cs1 cs2 : Option String) :
    (deliver (deliver s
        (.json { type := some pipelineProgressType
                 stages := some st1
                 progress_pct := some p
                 call_status := cs1 }))
        (.json { type := some pipelineProgressType
                 stages := some st2
                 progress_pct := some q
                 call_status := cs2 })).progressPct = q := by
  obtain ⟨-, h1d⟩ := deliver_progress_pct s
    { type := some pipelineProgressType
      stages := some st1
      progress_pct := some p
      call_status := cs1 } hdone rfl
  obtain ⟨h2p, -⟩ := deliver_progress_pct _
    { type := some pipelineProgressType
      stages := some st2
      progress_pct := some q
      call_status := cs2 } h1d rfl
  simpa using h2p

/-- Concrete instantiation of the amended C4 theorem with a decreasing pair. -/
theorem c4_amended_last_writer_wins_witness :
    (deliver (deliver (initView statusProcessing)
        (.json { type := some pipelineProgressType
                 stages := some []
                 progress_pct := some 50
                 call_status := some statusProcessing }))
        (.json { type := some pipelineProgressType
                 stages := some []
                 progress_pct := some 30
                 call_status := some statusProcessing })).progressPct = 30 :=
  c4_amended_last_writer_wins (initView statusProcessing) (by decide) 50 30 [] []
    (some statusProcessing) (some statusProcessing)

/-- C6: the claim that on `complete` the percentage is forced to 100 whenever
the event did not carry a terminal-appropriate value is false on the code: a
`pipeline_complete` frame carrying `progress_pct = 40` together with a
nonempty stage list leaves the exposed percentage at 40. -/
theorem c6_force100_counterexample :
    (deliver (initView statusProcessing) (.json exComplete40)).done = true ∧
    (deliver (initView statusProcessing) (.json exComplete40)).progressPct = 40 ∧
    (deliver (initView statusProcessing) (.json exComplete40)).progressPct ≠ 100 := by
  decide

/-- C6 (amended): on `complete` the reducer performs the same wholesale
replacement of `stages`, percentage and job status as on `progress` and sets
the job terminal; percentage is forced to 100 exactly when the replaced stage
list is empty (the no-stage-data case), regardless of the percentage the event
carried — otherwise the event's value stands even when below 100. -/
theorem c6_amended_force100_on_empty_stages (s : PipelineState) (m : WsMessage)
    (hdone : s.done = false) (ht : m.type = some pipelineCompleteType) :
    (deliver s (.json m)).stages = m.stages.getD [] ∧
    (deliver s (.json m)).callStatus = m.call_status ∧
    (deliver s (.json m)).done = true ∧
    (deliver s (.json m)).progressPct =
      (if (m.stages.getD []).isEmpty then 100 else m.progress_pct.getD 0) := by
  have h1 : recognized m.type = true := by rw [ht]; decide
  have h2 : (m.type == some pipelineCompleteType) = true := by rw [ht]; decide
  simp only [deliver, hdone, Bool.false_eq_true, if_false]
  unfold onMessage forceFullBar
  simp only [h1, h2, if_true]
  split_ifs <;> simp_all

/-- Concrete instantiation of the amended C6 theorem: a complete frame with
percentage 40 and one running stage. -/
theorem c6_amended_force100_on_empty_stages_witness :
    (deliver (initView statusProcessing) (.json exComplete40)).stages =
      exComplete40.stages.getD [] ∧
    (deliver (initView statusProcessing) (.json exComplete40)).callStatus =
      exComplete40.call_status ∧
    (deliver (initView statusProcessing) (.json exComplete40)).done = true ∧
    (deliver (initView statusProcessing) (.json exComplete40)).progressPct =
      (if (exComplete40.stages.getD []).isEmpty then 100
       else exComplete40.progress_pct.getD 0) :=
  c6_amended_force100_on_empty_stages (initView statusProcessing) exComplete40
    (by decide) rfl

/-- C3: the claim that after channel loss and reconnect exactly one snapshot
fetch is issued before any subsequent push event is applied is false on the
code: in the trace mount, open, progress, loss, reconnect, open, progress the
only fetch ever issued is the initial mount fetch, and the post-reconnect
progress event is applied with zero intervening fetches. -/
theorem c3_reconnect_fetch_counterexample :
    (cdpRun (cdpInit statusProcessing)
        [CdpAction.mount, CdpAction.sockOpen, CdpAction.recv (RawFrame.json exProgress10),
         CdpAction.sockClose, CdpAction.reconnectTimer, CdpAction.sockOpen]).2 =
      [CdpEvent.fetchIssued, CdpEvent.eventApplied] ∧
    (cdpRun (cdpInit statusProcessing)
        [CdpAction.mount, CdpAction.sockOpen, CdpAction.recv (RawFrame.json exProgress10),
         CdpAction.sockClose, CdpAction.reconnectTimer, CdpAction.sockOpen,
         CdpAction.recv (RawFrame.json exProgress20)]).2 =
      [CdpEvent.fetchIssued, CdpEvent.eventApplied, CdpEvent.eventApplied] := by decide

/-- C3 (amended): a reconnect issues no snapshot fetch at all — the only
actions that can emit a fetch are the component mount and the firing of the
1000 ms settle timer armed by a `complete` event; in particular, push events
arriving after a reconnect are applied with no intervening fetch, and the
settle timer emits nothing unless a `complete` event armed it. -/
theorem c3_amended_fetch_only_mount_or_settle (s : CdpState) (a : CdpAction)
    (hm : a ≠ CdpAction.mount) (hs : a ≠ CdpAction.settleTimer) :
    CdpEvent.fetchIssued ∉ (cdpStep s a).2 ∧
    (s.settlePending = false → cdpStep s CdpAction.settleTimer = (s, [])) := by
  constructor
  · cases a with
    | mount => exact absurd rfl hm
    | settleTimer => exact absurd rfl hs
    | sockOpen => simp [cdpStep]
    | sockClose => simp [cdpStep]
    | reconnectTimer => simp [cdpStep]
    | recv f =>
      cases f with
      | notJson => simp [cdpStep]
      | json m =>
        simp only [cdpStep]
        split_ifs <;> simp
  · intro hp
    simp [cdpStep, hp]

/-- Concrete instantiation of the amended C3 theorem: the socket-open action
right after a reconnect emits no fetch. -/
theorem c3_amended_fetch_only_mount_or_settle_witness :
    CdpEvent.fetchIssued ∉ (cdpStep (cdpInit statusProcessing) CdpAction.sockOpen).2 ∧
    ((cdpInit statusProcessing).settlePending = false →
      cdpStep (cdpInit statusProcessing) CdpAction.settleTimer =
        (cdpInit statusProcessing, [])) :=
  c3_amended_fetch_only_mount_or_settle (cdpInit statusProcessing) CdpAction.sockOpen
    (by decide) (by decide)

/-- C5: the claim that every frame not matching the recognized event shape is
discarded entirely is false on the code: only the `type` field is checked, so
the frame `{"type":"pipeline_progress"}` with every other field missing is
applied, resetting the percentage from 50 to the default 0. -/
theorem c5_discard_counterexample :
    (deliver (initView statusProcessing) (.json exProgress50)).progressPct = 50 ∧
    (deliver (deliver (initView statusProcessing) (.json exProgress50))
        (.json exShapelessProgress)).progressPct = 0 ∧
    deliver (deliver (initView statusProcessing) (.json exProgress50))
        (.json exShapelessProgress) ≠
      deliver (initView statusProcessing) (.json exProgress50) := by decide

/-- C5 (amended): a frame that is not decodable JSON, or whose `type` is not
`pipeline_progress` or `pipeline_complete` (for example `{"type":"ping"}`), is
discarded with no JobView change, no exception and no effect on the open
channel; but shape beyond the `type` field is not validated — a frame with a
recognized type is applied even when the remaining fields are missing, with
`stages` defaulting to `[]` and `progress_pct` to 0. -/
theorem c5_amended_type_only_filter (s : PipelineState) (cs : CdpState) (m : WsMessage)
    (hrec : recognized m.type = false) :
    deliver s RawFrame.notJson = s ∧
    deliver s (RawFrame.json m) = s ∧
    cdpStep cs (CdpAction.recv RawFrame.notJson) = (cs, []) ∧
    cdpStep cs (CdpAction.recv (RawFrame.json m)) = (cs, []) := by
  refine ⟨?_, ?_, ?_, ?_⟩
  · unfold deliver
    split <;> rfl
  · by_cases hd : s.done = true
    · simp [deliver, hd]
    · replace hd : s.done = false := by simpa using hd
      simp [deliver, hd, onMessage, hrec, forceFullBar]
  · simp [cdpStep]
  · simp [cdpStep, hrec]

/-- Concrete instantiation of the amended C5 theorem at the heartbeat frame
`{"type":"ping"}`: nothing changes at either the reducer or the page level. -/
theorem c5_amended_type_only_filter_witness :
    deliver (initView statusProcessing) RawFrame.notJson = initView statusProcessing ∧
    deliver (initView statusProcessing) (RawFrame.json exPing) = initView statusProcessing ∧
    cdpStep (cdpInit statusProcessing) (CdpAction.recv RawFrame.notJson) =
      (cdpInit statusProcessing, []) ∧
    cdpStep (cdpInit statusProcessing) (CdpAction.recv (RawFrame.json exPing)) =
      (cdpInit statusProcessing, []) :=
  c5_amended_type_only_filter (initView statusProcessing) (cdpInit statusProcessing)
    exPing (by decide)

/-- C7: the claim that `send` silently drops the payload in every non-Open
channel state is false on the code: while the socket is still CONNECTING the
unguarded `wsRef.current?.send(...)` throws an `InvalidStateError` instead of
dropping. -/
theorem c7_send_counterexample :
    hookSend (some ReadyState.CONNECTING) = SendOutcome.invalidStateError ∧
    SendOutcome.invalidStateError ≠ SendOutcome.dropped := by decide

/-- C7 (amended): `send` transmits only while the channel is Open; it is
silently dropped when no socket object exists yet (Idle) and when the socket
is CLOSING or CLOSED, and nothing is ever queued; but while the socket is
CONNECTING the call is forwarded unguarded and the platform `WebSocket.send`
throws an `InvalidStateError`. -/
theorem c7_amended_send_behavior :
    hookSend none = SendOutcome.dropped ∧
    hookSend (some ReadyState.CLOSING) = SendOutcome.dropped ∧
    hookSend (some ReadyState.CLOSED) = SendOutcome.dropped ∧
    hookSend (some ReadyState.OPEN) = SendOutcome.transmitted ∧
    hookSend (some ReadyState.CONNECTING) = SendOutcome.invalidStateError := by decide

/-- Total count of a batch grows by one per prepended job. -/
theorem totalCount_cons (c : BatchCall) (cs : List BatchCall) :
    totalCount (c :: cs) = totalCount cs + 1 := by
  simp [totalCount]

/-- Completed count of a batch, one prepended job at a time. -/
theorem completedCount_cons (c : BatchCall) (cs : List BatchCall) :
    completedCount (c :: cs) =
      (if c.status == statusCompleted then 1 else 0) + completedCount cs := by
  by_cases hc : (c.status == statusCompleted) = true
  · simp [completedCount, List.filter_cons, hc, Nat.add_comm]
  · simp [completedCount, List.filter_cons, hc]

/-- Failed count of a batch, one prepended job at a time. -/
theorem failedCount_cons (c : BatchCall) (cs : List BatchCall) :
    failedCount (c :: cs) =
      (if c.status == statusFailed then 1 else 0) + failedCount cs := by
  by_cases hc : (c.status == statusFailed) = true
  · simp [failedCount, List.filter_cons, hc, Nat.add_comm]
  · simp [failedCount, List.filter_cons, hc]

/-- Activity flag of a batch, one prepended job at a time. -/
theorem hasActive_cons (c : BatchCall) (cs : List BatchCall) :
    hasActive (c :: cs) =
      ((c.status == statusQueued || c.status == statusProcessing) || hasActive cs) := by
  simp [hasActive]

/-- C8: for every batch whose statuses are drawn from the job-store vocabulary
queued / processing / completed / failed, the computed view satisfies
`completedCount + failedCount ≤ totalCount` and `hasActive` holds exactly when
`completedCount + failedCount < totalCount`. -/
theorem c8_batch_view_invariants (calls : List BatchCall)
    (h : ∀ c ∈ calls, c.status = statusQueued ∨ c.status = statusProcessing ∨
      c.status = statusCompleted ∨ c.status = statusFailed) :
    completedCount calls + failedCount calls ≤ totalCount calls ∧
    (hasActive calls = true ↔
      completedCount calls + failedCount calls < totalCount calls) := by
  induction calls with
  | nil => simp [completedCount, failedCount, totalCount, hasActive]
  | cons c cs ih =>
    obtain ⟨ih1, ih2⟩ := ih (fun x hx => h x (List.mem_cons_of_mem c hx))
    have hc := h c (List.mem_cons_self c cs)
    rw [totalCount_cons, completedCount_cons, failedCount_cons, hasActive_cons]
    rcases hc with h1 | h1 | h1 | h1 <;> rw [h1]
    · have e1 : (statusQueued == statusCompleted) = false := by decide
      have e2 : (statusQueued == statusFailed) = false := by decide
      have e3 : (statusQueued == statusQueued || statusQueued == statusProcessing) = true := by
        decide
      refine ⟨by simp [e1, e2]; omega, ?_⟩
      simp [e1, e2, e3]
      omega
    · have e1 : (statusProcessing == statusCompleted) = false := by decide
      have e2 : (statusProcessing == statusFailed) = false := by decide
      have e3 : (statusProcessing == statusQueued || statusProcessing == statusProcessing)
          = true := by decide
      refine ⟨by simp [e1, e2]; omega, ?_⟩
      simp [e1, e2, e3]
      omega
    · have e1 : (statusCompleted == statusCompleted) = true := by decide
      have e2 : (statusCompleted == statusFailed) = false := by decide
      have e3 : (statusCompleted == statusQueued || statusCompleted == statusProcessing)
          = false := by decide
      refine ⟨by simp [e1, e2]; omega, ?_⟩
      simp [e1, e2, e3]
      rw [ih2]
      omega
    · have e1 : (statusFailed == statusCompleted) = false := by decide
      have e2 : (statusFailed == statusFailed) = true := by decide
      have e3 : (statusFailed == statusQueued || statusFailed == statusProcessing)
          = false := by decide
      refine ⟨by simp [e1, e2]; omega, ?_⟩
      simp [e1, e2, e3]
      rw [ih2]
      omega

/-- Concrete instantiation of the C8 theorem on the five-job example batch. -/
theorem c8_batch_view_invariants_witness :
    completedCount exBatchMixed + failedCount exBatchMixed ≤ totalCount exBatchMixed ∧
    (hasActive exBatchMixed = true ↔
      completedCount exBatchMixed + failedCount exBatchMixed < totalCount exBatchMixed) :=
  c8_batch_view_invariants exBatchMixed (by decide)

/-- Unfolding one step of `batchRun`. -/
theorem batchRun_cons (s : BatchState) (t : List BatchCall) (ts : List (List BatchCall)) :
    batchRun s (t :: ts) = batchRun (batchTick s t) ts := rfl

/-- Every reachable batch state keeps the interval armed exactly while some
job is active. -/
theorem batchRun_inv (s : BatchState) (ticks : List (List BatchCall))
    (h : s.timerArmed = hasActive s.calls) :
    (batchRun s ticks).timerArmed = hasActive (batchRun s ticks).calls := by
  induction ticks generalizing s with
  | nil => exact h
  | cons t ts ih =>
    rw [batchRun_cons]
    apply ih
    unfold batchTick refreshEffect
    split
    · rfl
    · exact h

/-- With the interval disarmed no tick ever changes the page state. -/
theorem batchRun_frozen (s : BatchState) (ticks : List (List BatchCall))
    (h : s.timerArmed = false) :
    batchRun s ticks = s := by
  induction ticks with
  | nil => rfl
  | cons t ts ih =>
    rw [batchRun_cons]
    simp only [batchTick, h, Bool.false_eq_true, if_false]
    exact ih

/-- C9: after each settled refresh the 5000 ms interval is armed iff some job
in the batch is still active; once `hasActive` is false the interval is
disarmed and no further tick sequence can change the page state or re-arm the
scheduler. -/
theorem c9_refresh_rearmed_iff_active (init : List BatchCall)
    (ticks more : List (List BatchCall)) :
    (batchRun (batchMount init) ticks).timerArmed =
      hasActive (batchRun (batchMount init) ticks).calls ∧
    (hasActive (batchRun (batchMount init) ticks).calls = false →
      batchRun (batchRun (batchMount init) ticks) more = batchRun (batchMount init) ticks) ∧
    BATCH_REFRESH_MS = 5000 := by
  have hinv := batchRun_inv (batchMount init) ticks rfl
  refine ⟨hinv, ?_, rfl⟩
  intro hfalse
  exact batchRun_frozen _ more (by rw [hinv, hfalse])

/-- Concrete instantiation of the C9 theorem: an all-terminal batch is
inactive and a later tick carrying an active job list changes nothing. -/
theorem c9_refresh_rearmed_iff_active_witness :
    hasActive (batchRun (batchMount exBatchDone) []).calls = false ∧
    batchRun (batchRun (batchMount exBatchDone) []) [exBatchMixed] =
      batchRun (batchMount exBatchDone) [] :=
  ⟨by decide,
    (c9_refresh_rearmed_iff_active exBatchDone [] [exBatchMixed]).2.1 (by decide)⟩

/-- Exact half-up rounding of `100 * c / t` agrees with the integer form
`(200c + t) / (2t)` used for the finite comparison against the float path. -/
theorem specRoundPct_eq_round (c t : ℕ) (ht : 0 < t) :
    (specRoundPct c t : ℤ) = round ((100 * (c : ℚ)) / (t : ℚ)) := by
  have ht' : (0:ℚ) < (t:ℚ) := by exact_mod_cast ht
  rw [round_eq]
  have harg : (100 * (c:ℚ))/(t:ℚ) + 1/2 = ((200*c + t : ℕ) : ℚ) / ((2*t : ℕ) : ℚ) := by
    push_cast
    field_simp
    ring
  rw [harg, ← Int.natCast_floor_eq_floor (by positivity), Nat.floor_div_eq_div]
  rfl

set_option maxRecDepth 40000 in
set_option maxHeartbeats 8000000 in
/-- Exhaustive evaluation of the float-versus-exact comparison over the whole
reachable domain: a batch page holds at most 100 jobs. -/
theorem nearSpec_all_check :
    ((List.range 101).all fun t => (List.range (t+1)).all fun c => nearSpec t c) = true := by
  rfl

/-- Over the whole reachable domain (a batch page holds at most 100 jobs) the
binary64 evaluation of `Math.round((c/t)*100)` agrees with the exact
`round(100c/t)` except at exact half-integer ties, where it is exactly one
below; the tie inputs are characterized by `200c ≡ t (mod 2t)`. -/
theorem pctCore_near_specRound : ∀ t < 101, ∀ c < 101, 1 ≤ t → c ≤ t →
    pctCore c t = specRoundPct c t ∨
    (pctCore c t + 1 = specRoundPct c t ∧ (200*c) % (2*t) = t) := by
  intro t ht c _hc _h1 h2
  have hrow := (List.all_eq_true.mp nearSpec_all_check) t (List.mem_range.mpr ht)
  have hcell := (List.all_eq_true.mp hrow) c (List.mem_range.mpr (by omega))
  simpa only [nearSpec, Bool.or_eq_true, Bool.and_eq_true, beq_iff_eq] using hcell

/-- A batch never counts more completed jobs than it has jobs. -/
theorem completedCount_le_totalCount (calls : List BatchCall) :
    completedCount calls ≤ totalCount calls :=
  List.length_filter_le _ _

/-- C10: the claim that the batch progress percentage equals the exact
`round(100 * completedCount / totalCount)` is false on the program: with 23 of
40 jobs completed the binary64 evaluation `(23/40)*100` yields the double
`57.49999999999999`, so `Math.round` returns 57, while the claimed exact
`round(100·23/40) = round(57.5)` is 58. -/
theorem c10_floatround_counterexample :
    batchProgressPct exBatch2340 = 57 ∧
    round ((100 * (completedCount exBatch2340 : ℚ)) / (totalCount exBatch2340 : ℚ)) = 58 ∧
    (57 : ℤ) ≠ 58 := by
  refine ⟨by decide, ?_, by decide⟩
  have h1 : completedCount exBatch2340 = 23 := by decide
  have h2 : totalCount exBatch2340 = 40 := by decide
  rw [h1, h2, ← specRoundPct_eq_round 23 40 (by omega)]
  decide

/-- C10 (amended): the batch progress bar is `Math.round((completed/total)*100)`
evaluated in binary64 floating point; the empty batch yields 0 so the
computation never divides by zero, failed jobs contribute nothing to the
numerator even though they are terminal, and for every batch up to the
100-job page size the result equals the exact `round(100*completed/total)`
except when `100*completed/total` is an exact half-integer tie, where the
float evaluation can land exactly one below (as at 23 of 40). -/
theorem c10_amended_float_progress (calls : List BatchCall) :
    (totalCount calls = 0 → batchProgressPct calls = 0) ∧
    (0 < totalCount calls → totalCount calls ≤ 100 →
      (batchProgressPct calls =
          round ((100 * (completedCount calls : ℚ)) / (totalCount calls : ℚ)) ∨
        (batchProgressPct calls + 1 =
            round ((100 * (completedCount calls : ℚ)) / (totalCount calls : ℚ)) ∧
          (200 * completedCount calls) % (2 * totalCount calls) = totalCount calls))) ∧
    (∀ fs : List BatchCall, (∀ c ∈ fs, c.status = statusFailed) →
      completedCount (calls ++ fs) = completedCount calls) := by
  refine ⟨?_, ?_, ?_⟩
  · intro h
    simp [batchProgressPct, h]
  · intro hpos hle
    have hct : completedCount calls ≤ totalCount calls := completedCount_le_totalCount calls
    have key := pctCore_near_specRound (totalCount calls) (by omega)
      (completedCount calls) (by omega) hpos hct
    rw [batchProgressPct, if_pos hpos]
    rcases key with h | ⟨h1, h2⟩
    · left
      rw [← specRoundPct_eq_round _ _ hpos]
      exact_mod_cast h
    · right
      refine ⟨?_, h2⟩
      rw [← specRoundPct_eq_round _ _ hpos]
      exact_mod_cast h1
  · intro fs hfs
    have hnil : fs.filter (fun c => c.status == statusCompleted) = [] := by
      rw [List.filter_eq_nil_iff]
      intro c hcmem
      rw [hfs c hcmem]
      decide
    simp [completedCount, List.filter_append, hnil]

/-- Concrete instantiation of the amended C10 theorem on the 23-of-40 batch,
where the tie disjunct is the one that holds. -/
theorem c10_amended_float_progress_witness :
    batchProgressPct exBatch2340 =
        round ((100 * (completedCount exBatch2340 : ℚ)) / (totalCount exBatch2340 : ℚ)) ∨
      (batchProgressPct exBatch2340 + 1 =
          round ((100 * (completedCount exBatch2340 : ℚ)) / (totalCount exBatch2340 : ℚ)) ∧
        (200 * completedCount exBatch2340) % (2 * totalCount exBatch2340) =
          totalCount exBatch2340) :=
  (c10_amended_float_progress exBatch2340).2.1 (by decide) (by decide)

end Audit
